import Mathlib

/-!
Shallow embedding of `src/orchestrator.py` (CI/CD orchestrator).

Modelling conventions:
* HTTP responses are inputs: each network call reads a response from the
  environment (a fixed record per endpoint, or a stream `Nat → _` for the
  polling loops).
* Each modelled function also returns the list of outward HTTP calls it
  issued (`Call`), so that claims about "no dispatch / no poll / no
  run-id lookup call" can be stated.
* Python truthiness of `token` (`None` or `""` is falsy) and of `run_id`
  (`None` or `0` is falsy) is modelled by `truthyToken` / `truthyId`.
* Time advances only at `time.sleep(check_interval)`: after `k` polling
  iterations the elapsed time is `k * check_interval`, so the `while`
  condition `time.time() - start_time < timeout` becomes
  `k * check_interval < timeout`.  The loop is written with explicit fuel;
  the callers pass fuel `timeout + 1`, which never runs out when
  `0 < check_interval` (an iteration requires `k * check_interval < timeout`,
  hence `k < timeout`, so at most `timeout` iterations happen).
* Python exceptions (`KeyError` from `item["repo"]` etc.) are modelled with
  `Except PyErr`; `main`'s top-level `try/except` catches them.
-/

namespace Orch

/-- Python truthiness of a token (`if not token:`): `None` and `""` are falsy. -/
def truthyToken : Option String → Bool
  | none => false
  | some s => !s.isEmpty

/-- Python truthiness of a run id (`if not run_id:`): `None` and `0` are falsy. -/
def truthyId : Option Nat → Bool
  | none => false
  | some n => n != 0

/-- Python truthiness of `trigger_success` (`if not trigger_success`):
`None` and `False` are falsy. -/
def truthyBool : Option Bool → Bool
  | none => false
  | some b => b

/-- An outward HTTP call issued by the orchestrator (the observable effects). -/
inductive Call where
  | ghDispatch
  | ghRunLookup
  | ghPoll (runId : Nat)
  | azDispatch
  | azPoll (runId : Nat)
deriving DecidableEq, Repr

/-- Response to the GitHub workflow-dispatch POST (only the code is read). -/
structure GhDispatchResp where
  status_code : Nat
deriving DecidableEq, Repr

/-- Response to the GitHub list-runs GET: code plus the run ids in the body. -/
structure GhLookupResp where
  status_code : Nat
  workflow_runs : List Nat
deriving DecidableEq, Repr

/-- Response to the GitHub get-run GET: code, `status`, `conclusion`
(`run_data.get(...)`, hence `Option`). -/
structure GhRunResp where
  status_code : Nat
  status : Option String
  conclusion : Option String
deriving DecidableEq, Repr

/-- Response to the Azure run-creation POST: code plus `response.json().get("id")`. -/
structure AzDispatchResp where
  status_code : Nat
  id : Option Nat
deriving DecidableEq, Repr

/-- Response to the Azure get-run GET: code, `state`, `result`. -/
structure AzRunResp where
  status_code : Nat
  state : Option String
  result : Option String
deriving DecidableEq, Repr

/-- `trigger_workflow` (orchestrator.py lines 8-28).  Returns `None` when the
token is falsy (no HTTP call); otherwise POSTs once: 204 is success, 401 and
any other code are failure. -/
def trigger_workflow (token : Option String) (resp : GhDispatchResp) :
    Option Bool × List Call :=
  if !truthyToken token then (none, [])
  else if resp.status_code = 204 then (some true, [.ghDispatch])
  else if resp.status_code = 401 then (some false, [.ghDispatch])
  else (some false, [.ghDispatch])

/-- `trigger_azure_pipeline` (lines 34-59).  Returns the run id from the
response body on code 200 (possibly absent), `None` otherwise. -/
def trigger_azure_pipeline (token : Option String) (resp : AzDispatchResp) :
    Option Nat × List Call :=
  if !truthyToken token then (none, [])
  else if resp.status_code = 200 then (resp.id, [.azDispatch])
  else if resp.status_code = 401 then (none, [.azDispatch])
  else (none, [.azDispatch])

/-- `get_workflow_run_id` (lines 61-86).  On code 200 returns the id of the
first listed run (if any); on any other code, `None`. -/
def get_workflow_run_id (token : Option String) (resp : GhLookupResp) :
    Option Nat × List Call :=
  if !truthyToken token then (none, [])
  else if resp.status_code = 200 then
    match resp.workflow_runs with
    | run_id :: _ => (some run_id, [.ghRunLookup])
    | [] => (none, [.ghRunLookup])
  else (none, [.ghRunLookup])

/-- The polling `while` loop of `wait_for_github_workflow` (lines 103-132).
`k` is the number of polls already made (elapsed time `k * check_interval`).
Returns the boolean outcome and the total number of poll calls.
The `fuel = 0` fallback coincides with the timeout result and is unreachable
from `wait_for_github_workflow` when `0 < check_interval`. -/
def ghWaitGo (poll : Nat → GhRunResp) (timeout check_interval : Nat) :
    Nat → Nat → Bool × Nat
  | 0, k => (false, k)
  | fuel + 1, k =>
    if k * check_interval < timeout then
      let r := poll k
      if r.status_code = 200 then
        if r.status = some "completed" then
          if r.conclusion = some "success" then (true, k + 1)
          else (false, k + 1)
        else ghWaitGo poll timeout check_interval fuel (k + 1)
      else ghWaitGo poll timeout check_interval fuel (k + 1)
    else (false, k)

/-- `wait_for_github_workflow` (lines 88-132): guard on falsy run id / token,
then the polling loop. -/
def wait_for_github_workflow (run_id : Option Nat) (token : Option String)
    (timeout check_interval : Nat) (poll : Nat → GhRunResp) : Bool × Nat :=
  if !truthyId run_id || !truthyToken token then (false, 0)
  else ghWaitGo poll timeout check_interval (timeout + 1) 0

/-- The polling `while` loop of `wait_for_azure_pipeline` (lines 153-185). -/
def azWaitGo (poll : Nat → AzRunResp) (timeout check_interval : Nat) :
    Nat → Nat → Bool × Nat
  | 0, k => (false, k)
  | fuel + 1, k =>
    if k * check_interval < timeout then
      let r := poll k
      if r.status_code = 200 then
        if r.state = some "completed" then
          if r.result = some "succeeded" then (true, k + 1)
          else (false, k + 1)
        else azWaitGo poll timeout check_interval fuel (k + 1)
      else azWaitGo poll timeout check_interval fuel (k + 1)
    else (false, k)

/-- `wait_for_azure_pipeline` (lines 134-185). -/
def wait_for_azure_pipeline (run_id : Option Nat) (token : Option String)
    (timeout check_interval : Nat) (poll : Nat → AzRunResp) : Bool × Nat :=
  if !truthyId run_id || !truthyToken token then (false, 0)
  else azWaitGo poll timeout check_interval (timeout + 1) 0

/-- A Python exception surfacing from entry processing. -/
inductive PyErr where
  | keyError (key : String)
deriving DecidableEq, Repr

/-- A configuration entry (one JSON object of `config["workflows"]`).  Every
field is optional, `none` meaning the key is absent. -/
structure Item where
  type : Option String := none
  enabled : Option Bool := none
  repo : Option String := none
  workflow : Option String := none
  ref : Option String := none
  organization : Option String := none
  project : Option String := none
  pipeline_id : Option Nat := none
  branch : Option String := none
deriving DecidableEq, Repr

/-- The environment (HTTP responses) one GitHub entry's processing can read. -/
structure GhEnv where
  dispatch : GhDispatchResp
  lookup : GhLookupResp
  poll : Nat → GhRunResp

/-- The environment one Azure entry's processing can read. -/
structure AzEnv where
  dispatch : AzDispatchResp
  poll : Nat → AzRunResp

/-- `process_github_workflow` (lines 187-235).  `item["repo"]` and
`item["workflow"]` raise `KeyError` when absent (before any other step);
then: token gate, dispatch, the no-wait early return, the
failed-dispatch-and-halt return, settle delay plus run-id lookup, polling,
and the continue-on-error decision. -/
def process_github_workflow (item : Item) (github_token : Option String)
    (wait_for_completion : Bool) (timeout check_interval : Nat)
    (continue_on_error : Bool) (env : GhEnv) : Except PyErr (Bool × List Call) :=
  match item.repo with
  | none => .error (.keyError "repo")
  | some _repo =>
    match item.workflow with
    | none => .error (.keyError "workflow")
    | some _workflow =>
      if !truthyToken github_token then
        .ok (true, [])
      else
        let td := trigger_workflow github_token env.dispatch
        if !wait_for_completion then
          .ok (true, td.2)
        else if !truthyBool td.1 && !continue_on_error then
          .ok (false, td.2)
        else
          let rd := get_workflow_run_id github_token env.lookup
          if !truthyId rd.1 then
            .ok (continue_on_error, td.2 ++ rd.2)
          else
            let ws := wait_for_github_workflow rd.1 github_token timeout check_interval env.poll
            let pollCalls := List.replicate ws.2 (Call.ghPoll (rd.1.getD 0))
            if !ws.1 && !continue_on_error then
              .ok (false, td.2 ++ rd.2 ++ pollCalls)
            else
              .ok (true, td.2 ++ rd.2 ++ pollCalls)

/-- `process_azure_pipeline` (lines 237-282).  `item["organization"]`,
`item["project"]`, `item["pipeline_id"]` raise `KeyError` when absent; then:
token gate, dispatch (which itself yields the run id), the no-wait early
return, the no-run-id return, polling, and the continue-on-error decision. -/
def process_azure_pipeline (item : Item) (azure_token : Option String)
    (wait_for_completion : Bool) (timeout check_interval : Nat)
    (continue_on_error : Bool) (env : AzEnv) : Except PyErr (Bool × List Call) :=
  match item.organization with
  | none => .error (.keyError "organization")
  | some _organization =>
    match item.project with
    | none => .error (.keyError "project")
    | some _project =>
      match item.pipeline_id with
      | none => .error (.keyError "pipeline_id")
      | some _pipeline_id =>
        if !truthyToken azure_token then
          .ok (true, [])
        else
          let rd := trigger_azure_pipeline azure_token env.dispatch
          if !wait_for_completion then
            .ok (true, rd.2)
          else if !truthyId rd.1 then
            .ok (continue_on_error, rd.2)
          else
            let ws := wait_for_azure_pipeline rd.1 azure_token timeout check_interval env.poll
            let pollCalls := List.replicate ws.2 (Call.azPoll (rd.1.getD 0))
            if !ws.1 && !continue_on_error then
              .ok (false, rd.2 ++ pollCalls)
            else
              .ok (true, rd.2 ++ pollCalls)

/-- The environments available to one loop iteration of `main`. -/
structure EntryEnv where
  gh : GhEnv
  az : AzEnv

/-- The parsed configuration file (`config["workflows"]`). -/
structure Config where
  workflows : List Item

/-- Observable outcome of `main` (the source communicates these by prints and
early returns). -/
inductive BatchOutcome where
  | noCredentials
  | allProcessed
  | stoppedOnFailure (index : Nat)
  | caughtException (e : PyErr)
deriving DecidableEq, Repr

/-- One iteration body of the `for` loop in `main` (lines 313-348): the
disabled-entry skip, then the `type` dispatch; an entry whose type is neither
"github" nor "azure" falls through to the next iteration. -/
def runEntry (item : Item) (github_token azure_token : Option String)
    (wait_for_completion : Bool) (timeout check_interval : Nat)
    (continue_on_error : Bool) (env : EntryEnv) : Except PyErr (Bool × List Call) :=
  if !(item.enabled.getD true) then .ok (true, [])
  else if item.type = some "github" then
    process_github_workflow item github_token wait_for_completion timeout
      check_interval continue_on_error env.gh
  else if item.type = some "azure" then
    process_azure_pipeline item azure_token wait_for_completion timeout
      check_interval continue_on_error env.az
  else .ok (true, [])

/-- The `for` loop of `main` over `config["workflows"]` (enumerated from 1),
inside the top-level `try`.  Returns the outcome, the trace of HTTP calls
tagged with the index of the entry that issued them, and the list of entry
indices whose iteration was reached.  A raised `PyErr` aborts the loop and is
converted to `.caughtException` (the top-level `except`); a `False` from a
process function makes `main` return early (`.stoppedOnFailure`). -/
def mainGo (github_token azure_token : Option String) (wait_for_completion : Bool)
    (timeout check_interval : Nat) (continue_on_error : Bool)
    (env : Nat → EntryEnv) : List Item → Nat → BatchOutcome × List (Nat × Call) × List Nat
  | [], _ => (.allProcessed, [], [])
  | item :: rest, index =>
    match runEntry item github_token azure_token wait_for_completion timeout
        check_interval continue_on_error (env index) with
    | .error e => (.caughtException e, [], [index])
    | .ok (success, calls) =>
      if success then
        let r := mainGo github_token azure_token wait_for_completion timeout
          check_interval continue_on_error env rest (index + 1)
        (r.1, calls.map (fun c => (index, c)) ++ r.2.1, index :: r.2.2)
      else
        (.stoppedOnFailure index, calls.map (fun c => (index, c)), [index])

/-- `main` (lines 284-355), with the configuration already parsed: the
credential gate, then the entry loop under the top-level `try/except`. -/
def main (config : Config) (github_token azure_token : Option String)
    (wait_for_completion : Bool) (timeout check_interval : Nat)
    (continue_on_error : Bool) (env : Nat → EntryEnv) :
    BatchOutcome × List (Nat × Call) × List Nat :=
  if !truthyToken github_token && !truthyToken azure_token then (.noCredentials, [], [])
  else mainGo github_token azure_token wait_for_completion timeout check_interval
    continue_on_error env config.workflows 1

/-- A GitHub poll response is terminal for the loop exactly when the HTTP call
succeeded and the run's `status` is `"completed"`. -/
def ghTerminal (r : GhRunResp) : Prop :=
  r.status_code = 200 ∧ r.status = some "completed"

instance (r : GhRunResp) : Decidable (ghTerminal r) :=
  inferInstanceAs (Decidable (_ ∧ _))

/-- An Azure poll response is terminal exactly when the HTTP call succeeded
and the run's `state` is `"completed"`. -/
def azTerminal (r : AzRunResp) : Prop :=
  r.status_code = 200 ∧ r.state = some "completed"

instance (r : AzRunResp) : Decidable (azTerminal r) :=
  inferInstanceAs (Decidable (_ ∧ _))

/-! Concrete fixtures, used by the witness theorems. -/

/-- A GitHub run that is forever in progress. -/
def pendingGhPoll : Nat → GhRunResp := fun _ => ⟨200, some "in_progress", none⟩

/-- An Azure run that is forever in progress. -/
def pendingAzPoll : Nat → AzRunResp := fun _ => ⟨200, some "inProgress", none⟩

/-- A GitHub run that is already completed successfully. -/
def successGhPoll : Nat → GhRunResp := fun _ => ⟨200, some "completed", some "success"⟩

/-- A GitHub run that is already completed with conclusion "failure". -/
def failedGhPoll : Nat → GhRunResp := fun _ => ⟨200, some "completed", some "failure"⟩

/-- An Azure run that is already completed successfully. -/
def succeededAzPoll : Nat → AzRunResp := fun _ => ⟨200, some "completed", some "succeeded"⟩

/-- GitHub poll endpoint answering 500 on every call. -/
def errorGhPoll : Nat → GhRunResp := fun _ => ⟨500, none, none⟩

/-- Azure poll endpoint answering 500 on every call. -/
def errorAzPoll : Nat → AzRunResp := fun _ => ⟨500, none, none⟩

/-- An entry with no "type" key at all. -/
def itemPlain : Item := {}

/-- A well-formed GitHub entry. -/
def itemGh : Item := { type := some "github", repo := some "octo/app", workflow := some "ci.yml" }

/-- A disabled GitHub entry. -/
def itemGhDisabled : Item := { itemGh with enabled := some false }

/-- A GitHub entry missing the required "repo" key. -/
def itemGhNoRepo : Item := { type := some "github", workflow := some "ci.yml" }

/-- A well-formed Azure entry. -/
def itemAz : Item :=
  { type := some "azure", organization := some "org", project := some "proj",
    pipeline_id := some 9 }

/-- GitHub environment where everything succeeds (run id 5). -/
def ghEnvHappy : GhEnv := { dispatch := ⟨204⟩, lookup := ⟨200, [5]⟩, poll := successGhPoll }

/-- GitHub environment where dispatch succeeds but the run fails. -/
def ghEnvEntryFails : GhEnv := { dispatch := ⟨204⟩, lookup := ⟨200, [5]⟩, poll := failedGhPoll }

/-- GitHub environment where dispatch fails (401) but a stale run (id 7) is
listed by the lookup endpoint. -/
def ghEnvDispatchFails : GhEnv := { dispatch := ⟨401⟩, lookup := ⟨200, [7]⟩, poll := failedGhPoll }

/-- Azure environment where everything succeeds (run id 42). -/
def azEnvHappy : AzEnv := { dispatch := ⟨200, some 42⟩, poll := succeededAzPoll }

/-- Azure environment where dispatch fails with a 503. -/
def azEnvNoRun : AzEnv := { dispatch := ⟨503, none⟩, poll := succeededAzPoll }

/-- Entry environment where both backends succeed. -/
def envHappy : EntryEnv := { gh := ghEnvHappy, az := azEnvHappy }

/-- Batch environment: every entry sees the happy environment. -/
def envW : Nat → EntryEnv := fun _ => envHappy

/-- Batch environment where entry 2's GitHub run fails. -/
def envFails2 : Nat → EntryEnv :=
  fun n => if n = 2 then { gh := ghEnvEntryFails, az := azEnvHappy } else envHappy

/-! Arithmetic facts about the ceiling division `(t + i - 1) / i`, which is
the number of poll iterations the `while` loop performs when nothing is
terminal. -/

theorem mul_lt_iff_lt_ceil (t i k : Nat) (hi : 0 < i) :
    k * i < t ↔ k < (t + i - 1) / i := by
  have h : (k < (t + i - 1) / i) = (k + 1 ≤ (t + i - 1) / i) := rfl
  rw [h, Nat.le_div_iff_mul_le hi, add_one_mul]
  generalize k * i = m
  omega

theorem ceil_le_succ (t i : Nat) (hi : 0 < i) : (t + i - 1) / i ≤ t + 1 := by
  by_contra hc
  push_neg at hc
  have h1 : (t + 1) * i < t := (mul_lt_iff_lt_ceil t i (t + 1) hi).2 hc
  have h2 : (t + 1) * 1 ≤ (t + 1) * i := Nat.mul_le_mul_left _ hi
  rw [mul_one] at h2
  set m := (t + 1) * i with hm
  omega

theorem floor_le_ceil (t i : Nat) (hi : 0 < i) : t / i ≤ (t + i - 1) / i :=
  Nat.div_le_div_right (by omega)

theorem ceil_le_floor_succ (t i : Nat) (hi : 0 < i) : (t + i - 1) / i ≤ t / i + 1 := by
  calc (t + i - 1) / i ≤ (t + i) / i := Nat.div_le_div_right (by omega)
    _ = t / i + 1 := Nat.add_div_right t hi

/-! Behaviour of the adapters when the token is present. -/

theorem trigger_workflow_eq (token : Option String) (resp : GhDispatchResp)
    (htok : truthyToken token = true) :
    trigger_workflow token resp = (some (decide (resp.status_code = 204)), [.ghDispatch]) := by
  unfold trigger_workflow
  rw [htok]
  by_cases h204 : resp.status_code = 204
  · simp [h204]
  · by_cases h401 : resp.status_code = 401 <;> simp [h204, h401]

theorem trigger_azure_pipeline_eq (token : Option String) (resp : AzDispatchResp)
    (htok : truthyToken token = true) :
    trigger_azure_pipeline token resp =
      ((if resp.status_code = 200 then resp.id else none), [.azDispatch]) := by
  unfold trigger_azure_pipeline
  rw [htok]
  by_cases h200 : resp.status_code = 200
  · simp [h200]
  · by_cases h401 : resp.status_code = 401 <;> simp [h200, h401]

theorem get_workflow_run_id_eq (token : Option String) (resp : GhLookupResp)
    (htok : truthyToken token = true) :
    get_workflow_run_id token resp =
      ((if resp.status_code = 200 then resp.workflow_runs.head? else none),
       [.ghRunLookup]) := by
  unfold get_workflow_run_id
  rw [htok]
  by_cases h200 : resp.status_code = 200
  · cases h : resp.workflow_runs <;> simp [h200, h]
  · simp [h200]

/-! The GitHub polling loop: one-step and whole-loop lemmas. -/

theorem ghWaitGo_step_nonterminal (poll : Nat → GhRunResp) (t i fuel k : Nat)
    (hk : k * i < t) (hnt : ¬ ghTerminal (poll k)) :
    ghWaitGo poll t i (fuel + 1) k = ghWaitGo poll t i fuel (k + 1) := by
  rw [ghWaitGo]
  rw [if_pos hk]
  by_cases h200 : (poll k).status_code = 200
  · have hst : ¬ (poll k).status = some "completed" := fun hc => hnt ⟨h200, hc⟩
    simp [h200, hst]
  · simp [h200]

theorem ghWaitGo_all_nonterminal (poll : Nat → GhRunResp) (t i : Nat) (hi : 0 < i)
    (hnt : ∀ j, j * i < t → ¬ ghTerminal (poll j)) :
    ∀ fuel k, k ≤ (t + i - 1) / i → (t + i - 1) / i ≤ k + fuel →
      ghWaitGo poll t i fuel k = (false, (t + i - 1) / i) := by
  intro fuel
  induction fuel with
  | zero =>
    intro k hk1 hk2
    have hk : k = (t + i - 1) / i := by omega
    subst hk
    rfl
  | succ fuel ih =>
    intro k hk1 hk2
    by_cases hcond : k * i < t
    · have hklt : k < (t + i - 1) / i := (mul_lt_iff_lt_ceil t i k hi).1 hcond
      rw [ghWaitGo_step_nonterminal poll t i fuel k hcond (hnt k hcond)]
      exact ih (k + 1) hklt (by omega)
    · have hge : ¬ k < (t + i - 1) / i := fun h =>
        hcond ((mul_lt_iff_lt_ceil t i k hi).2 h)
      have hk : k = (t + i - 1) / i := by omega
      subst hk
      rw [ghWaitGo]
      rw [if_neg hcond]

theorem ghWaitGo_first_terminal (poll : Nat → GhRunResp) (t i : Nat) (hi : 0 < i)
    (m : Nat) (hm : m * i < t) (hterm : ghTerminal (poll m))
    (hmin : ∀ j, j < m → ¬ ghTerminal (poll j)) :
    ∀ fuel k, k ≤ m → m < k + fuel →
      ghWaitGo poll t i fuel k =
        (decide ((poll m).conclusion = some "success"), m + 1) := by
  intro fuel
  induction fuel with
  | zero => intro k h1 h2; omega
  | succ fuel ih =>
    intro k h1 h2
    by_cases hkm : k = m
    · subst hkm
      obtain ⟨h200, hcomp⟩ := hterm
      rw [ghWaitGo]
      rw [if_pos hm]
      by_cases hc : (poll k).conclusion = some "success" <;> simp [h200, hcomp, hc]
    · have hklt : k < m := by omega
      have hcond : k * i < t :=
        lt_of_le_of_lt (Nat.mul_le_mul_right i (le_of_lt hklt)) hm
      rw [ghWaitGo_step_nonterminal poll t i fuel k hcond (hmin k hklt)]
      exact ih (k + 1) (by omega) (by omega)

/-! The Azure polling loop: the same lemmas. -/

theorem azWaitGo_step_nonterminal (poll : Nat → AzRunResp) (t i fuel k : Nat)
    (hk : k * i < t) (hnt : ¬ azTerminal (poll k)) :
    azWaitGo poll t i (fuel + 1) k = azWaitGo poll t i fuel (k + 1) := by
  rw [azWaitGo]
  rw [if_pos hk]
  by_cases h200 : (poll k).status_code = 200
  · have hst : ¬ (poll k).state = some "completed" := fun hc => hnt ⟨h200, hc⟩
    simp [h200, hst]
  · simp [h200]

theorem azWaitGo_all_nonterminal (poll : Nat → AzRunResp) (t i : Nat) (hi : 0 < i)
    (hnt : ∀ j, j * i < t → ¬ azTerminal (poll j)) :
    ∀ fuel k, k ≤ (t + i - 1) / i → (t + i - 1) / i ≤ k + fuel →
      azWaitGo poll t i fuel k = (false, (t + i - 1) / i) := by
  intro fuel
  induction fuel with
  | zero =>
    intro k hk1 hk2
    have hk : k = (t + i - 1) / i := by omega
    subst hk
    rfl
  | succ fuel ih =>
    intro k hk1 hk2
    by_cases hcond : k * i < t
    · have hklt : k < (t + i - 1) / i := (mul_lt_iff_lt_ceil t i k hi).1 hcond
      rw [azWaitGo_step_nonterminal poll t i fuel k hcond (hnt k hcond)]
      exact ih (k + 1) hklt (by omega)
    · have hge : ¬ k < (t + i - 1) / i := fun h =>
        hcond ((mul_lt_iff_lt_ceil t i k hi).2 h)
      have hk : k = (t + i - 1) / i := by omega
      subst hk
      rw [azWaitGo]
      rw [if_neg hcond]

theorem azWaitGo_first_terminal (poll : Nat → AzRunResp) (t i : Nat) (hi : 0 < i)
    (m : Nat) (hm : m * i < t) (hterm : azTerminal (poll m))
    (hmin : ∀ j, j < m → ¬ azTerminal (poll j)) :
    ∀ fuel k, k ≤ m → m < k + fuel →
      azWaitGo poll t i fuel k =
        (decide ((poll m).result = some "succeeded"), m + 1) := by
  intro fuel
  induction fuel with
  | zero => intro k h1 h2; omega
  | succ fuel ih =>
    intro k h1 h2
    by_cases hkm : k = m
    · subst hkm
      obtain ⟨h200, hcomp⟩ := hterm
      rw [azWaitGo]
      rw [if_pos hm]
      by_cases hc : (poll k).result = some "succeeded" <;> simp [h200, hcomp, hc]
    · have hklt : k < m := by omega
      have hcond : k * i < t :=
        lt_of_le_of_lt (Nat.mul_le_mul_right i (le_of_lt hklt)) hm
      rw [azWaitGo_step_nonterminal poll t i fuel k hcond (hmin k hklt)]
      exact ih (k + 1) (by omega) (by omega)

/-- With a truthy run id and token, the guard of `wait_for_github_workflow`
passes and the loop starts with fuel `timeout + 1` at `k = 0`. -/
theorem wait_for_github_workflow_run (rid : Nat) (token : Option String)
    (t i : Nat) (poll : Nat → GhRunResp) (hrid : rid ≠ 0)
    (htok : truthyToken token = true) :
    wait_for_github_workflow (some rid) token t i poll =
      ghWaitGo poll t i (t + 1) 0 := by
  unfold wait_for_github_workflow
  simp [truthyId, htok, hrid]

/-- With a truthy run id and token, the guard of `wait_for_azure_pipeline`
passes and the loop starts with fuel `timeout + 1` at `k = 0`. -/
theorem wait_for_azure_pipeline_run (rid : Nat) (token : Option String)
    (t i : Nat) (poll : Nat → AzRunResp) (hrid : rid ≠ 0)
    (htok : truthyToken token = true) :
    wait_for_azure_pipeline (some rid) token t i poll =
      azWaitGo poll t i (t + 1) 0 := by
  unfold wait_for_azure_pipeline
  simp [truthyId, htok, hrid]

/-- C3: for a GitHub polling run (truthy run id and token, positive
interval): when the first terminal poll response (status "completed",
observed within the timeout window, all earlier responses nonterminal so the
loop kept polling through them) has conclusion "success" the wait returns
`true`, and with any other conclusion it returns `false`; and when no
response within the timeout window is terminal, the timeout elapses and the
wait returns `false`, not `true`. -/
theorem github_await_terminal_classification
    (rid : Nat) (token : Option String) (t i : Nat)
    (pollT pollN : Nat → GhRunResp) (m : Nat)
    (hrid : rid ≠ 0) (htok : truthyToken token = true) (hi : 0 < i)
    (hm : m * i < t) (hterm : ghTerminal (pollT m))
    (hmin : ∀ j, j < m → ¬ ghTerminal (pollT j))
    (hnone : ∀ j, j * i < t → ¬ ghTerminal (pollN j)) :
    (wait_for_github_workflow (some rid) token t i pollT).1 =
      decide ((pollT m).conclusion = some "success") ∧
    (wait_for_github_workflow (some rid) token t i pollN).1 = false := by
  constructor
  · rw [wait_for_github_workflow_run rid token t i pollT hrid htok]
    have hmt : m * 1 ≤ m * i := Nat.mul_le_mul_left m hi
    rw [ghWaitGo_first_terminal pollT t i hi m hm hterm hmin (t + 1) 0
      (Nat.zero_le m) (by omega)]
  · rw [wait_for_github_workflow_run rid token t i pollN hrid htok]
    rw [ghWaitGo_all_nonterminal pollN t i hi hnone (t + 1) 0 (Nat.zero_le _)
      (by have := ceil_le_succ t i hi; omega)]

/-- Witness for C3: a run already completed with conclusion "success" yields
`true`; a run that never completes within the window yields `false`. -/
theorem github_await_terminal_classification_witness :
    (wait_for_github_workflow (some 1) (some "t") 60 30 successGhPoll).1 = true ∧
    (wait_for_github_workflow (some 1) (some "t") 60 30 pendingGhPoll).1 = false := by
  have h := github_await_terminal_classification 1 (some "t") 60 30 successGhPoll
    pendingGhPoll 0 (by decide) (by decide) (by decide) (by decide) (by decide)
    (fun j hj => absurd hj (Nat.not_lt_zero j))
    (fun j _ hc => by simp [pendingGhPoll, ghTerminal] at hc)
  exact ⟨h.1.trans (by decide), h.2⟩

/-- C7: when no poll response within the timeout window is terminal, both
polling loops stop with result `false` after exactly `⌈timeout/interval⌉`
poll attempts, a count between `⌊timeout/interval⌋` and
`⌊timeout/interval⌋ + 1`. -/
theorem polling_timeout_attempt_count
    (rid : Nat) (gtoken atoken : Option String) (t i : Nat)
    (gpoll : Nat → GhRunResp) (apoll : Nat → AzRunResp)
    (hrid : rid ≠ 0) (hg : truthyToken gtoken = true)
    (ha : truthyToken atoken = true) (hi : 0 < i)
    (hgnt : ∀ j, j * i < t → ¬ ghTerminal (gpoll j))
    (hant : ∀ j, j * i < t → ¬ azTerminal (apoll j)) :
    wait_for_github_workflow (some rid) gtoken t i gpoll = (false, (t + i - 1) / i) ∧
    wait_for_azure_pipeline (some rid) atoken t i apoll = (false, (t + i - 1) / i) ∧
    t / i ≤ (t + i - 1) / i ∧ (t + i - 1) / i ≤ t / i + 1 := by
  refine ⟨?_, ?_, floor_le_ceil t i hi, ceil_le_floor_succ t i hi⟩
  · rw [wait_for_github_workflow_run rid gtoken t i gpoll hrid hg]
    exact ghWaitGo_all_nonterminal gpoll t i hi hgnt (t + 1) 0 (Nat.zero_le _)
      (by have := ceil_le_succ t i hi; omega)
  · rw [wait_for_azure_pipeline_run rid atoken t i apoll hrid ha]
    exact azWaitGo_all_nonterminal apoll t i hi hant (t + 1) 0 (Nat.zero_le _)
      (by have := ceil_le_succ t i hi; omega)

/-- Witness for C7: with timeout 90 and interval 30 and never-terminal runs,
both waits time out after exactly 3 polls. -/
theorem polling_timeout_attempt_count_witness :
    wait_for_github_workflow (some 1) (some "g") 90 30 pendingGhPoll = (false, 3) ∧
    wait_for_azure_pipeline (some 1) (some "a") 90 30 pendingAzPoll = (false, 3) ∧
    90 / 30 ≤ 3 ∧ 3 ≤ 90 / 30 + 1 := by
  have h := polling_timeout_attempt_count 1 (some "g") (some "a") 90 30 pendingGhPoll
    pendingAzPoll (by decide) (by decide) (by decide) (by decide)
    (fun j _ hc => by simp [pendingGhPoll, ghTerminal] at hc)
    (fun j _ hc => by simp [pendingAzPoll, azTerminal] at hc)
  exact h

/-- C8: a failed HTTP poll call (non-200 response) in either polling loop is
transient: that iteration neither aborts the loop nor produces a result; the
loop simply moves on to the next scheduled poll after the interval sleep, so
only the timeout window bounds the wait. -/
theorem poll_transport_error_transient
    (gpoll : Nat → GhRunResp) (apoll : Nat → AzRunResp) (t i fuel k : Nat)
    (hk : k * i < t)
    (hg : (gpoll k).status_code ≠ 200) (ha : (apoll k).status_code ≠ 200) :
    ghWaitGo gpoll t i (fuel + 1) k = ghWaitGo gpoll t i fuel (k + 1) ∧
    azWaitGo apoll t i (fuel + 1) k = azWaitGo apoll t i fuel (k + 1) :=
  ⟨ghWaitGo_step_nonterminal gpoll t i fuel k hk (fun hc => hg hc.1),
   azWaitGo_step_nonterminal apoll t i fuel k hk (fun hc => ha hc.1)⟩

/-- Witness for C8: a 500 on the first poll just advances both loops to the
next poll. -/
theorem poll_transport_error_transient_witness :
    ghWaitGo errorGhPoll 90 30 6 0 = ghWaitGo errorGhPoll 90 30 5 1 ∧
    azWaitGo errorAzPoll 90 30 6 0 = azWaitGo errorAzPoll 90 30 5 1 :=
  poll_transport_error_transient errorGhPoll errorAzPoll 90 30 5 0 (by decide)
    (by decide) (by decide)

/-- C4: an Azure entry with waiting enabled whose dispatch answers 200 with
body `{"id": 42}`: run id 42 is polled directly — the trace is the dispatch
followed only by polls of run 42, with no run-id lookup call — and when the
first terminal poll response is `state=completed, result=succeeded`, the
entry's overall outcome is success. -/
theorem azure_run_id_direct_success
    (item : Item) (atok : Option String) (t i : Nat) (coe : Bool) (env : AzEnv)
    (o p : String) (pid m : Nat)
    (horg : item.organization = some o) (hproj : item.project = some p)
    (hpid : item.pipeline_id = some pid)
    (ha : truthyToken atok = true) (hi : 0 < i)
    (hdisp : env.dispatch = ⟨200, some 42⟩)
    (hm : m * i < t) (hterm : azTerminal (env.poll m))
    (hres : (env.poll m).result = some "succeeded")
    (hmin : ∀ j, j < m → ¬ azTerminal (env.poll j)) :
    process_azure_pipeline item atok true t i coe env =
      .ok (true, Call.azDispatch :: List.replicate (m + 1) (Call.azPoll 42)) := by
  have hws : wait_for_azure_pipeline (some 42) atok t i env.poll = (true, m + 1) := by
    rw [wait_for_azure_pipeline_run 42 atok t i env.poll (by decide) ha]
    have hmt : m * 1 ≤ m * i := Nat.mul_le_mul_left m hi
    rw [azWaitGo_first_terminal env.poll t i hi m hm hterm hmin (t + 1) 0
      (Nat.zero_le m) (by omega)]
    rw [hres]
    simp
  unfold process_azure_pipeline
  rw [horg, hproj, hpid, hdisp]
  rw [trigger_azure_pipeline_eq atok ⟨200, some 42⟩ ha]
  simp [ha, truthyId, hws]

/-- Witness for C4: the happy Azure environment (dispatch 200 with id 42,
first poll already `completed/succeeded`) yields success with trace
`[azDispatch, azPoll 42]`. -/
theorem azure_run_id_direct_success_witness :
    process_azure_pipeline itemAz (some "a") true 30 30 false azEnvHappy =
      .ok (true, [Call.azDispatch, Call.azPoll 42]) := by
  have h := azure_run_id_direct_success itemAz (some "a") 30 30 false azEnvHappy
    "org" "proj" 9 0 rfl rfl rfl (by decide) (by decide) rfl (by decide)
    (by decide) rfl (fun j hj => absurd hj (Nat.not_lt_zero j))
  simpa using h

/-- C5: with wait-for-completion = false, both controllers return success
immediately after the dispatch call: the trace is exactly the one dispatch
call (zero polling calls, zero run-id lookup calls), whatever the dispatch
response was. -/
theorem no_wait_immediate_success
    (itemG itemA : Item) (gtok atok : Option String) (t i : Nat) (coe : Bool)
    (genv : GhEnv) (aenv : AzEnv) (r w o p : String) (pid : Nat)
    (hrepo : itemG.repo = some r) (hwf : itemG.workflow = some w)
    (horg : itemA.organization = some o) (hproj : itemA.project = some p)
    (hpid : itemA.pipeline_id = some pid)
    (hg : truthyToken gtok = true) (ha : truthyToken atok = true) :
    process_github_workflow itemG gtok false t i coe genv = .ok (true, [.ghDispatch]) ∧
    process_azure_pipeline itemA atok false t i coe aenv = .ok (true, [.azDispatch]) := by
  constructor
  · unfold process_github_workflow
    rw [hrepo, hwf]
    simp [hg, trigger_workflow_eq gtok genv.dispatch hg]
  · unfold process_azure_pipeline
    rw [horg, hproj, hpid]
    simp [ha, trigger_azure_pipeline_eq atok aenv.dispatch ha]

/-- Witness for C5: even with failing dispatch responses (GitHub 401, Azure
503), no-wait processing returns success after just the dispatch call. -/
theorem no_wait_immediate_success_witness :
    process_github_workflow itemGh (some "g") false 30 30 false ghEnvDispatchFails =
      .ok (true, [.ghDispatch]) ∧
    process_azure_pipeline itemAz (some "a") false 30 30 false azEnvNoRun =
      .ok (true, [.azDispatch]) :=
  no_wait_immediate_success itemGh itemAz (some "g") (some "a") 30 30 false
    ghEnvDispatchFails azEnvNoRun "octo/app" "ci.yml" "org" "proj" 9
    rfl rfl rfl rfl rfl (by decide) (by decide)

/-- Counterexample to C6 as stated: a GitHub entry whose dispatch fails with
401, under continue-on-error = true and waiting requested.  The code does
not stop at the failed dispatch: it resolves the latest run id (7, a stale
run) and polls it — the trace contains `ghPoll 7` — and the entry's signal is
success, refuting "a failed dispatch never leads to polling a run". -/
theorem failed_dispatch_polls_counterexample :
    process_github_workflow itemGh (some "g") true 30 30 true ghEnvDispatchFails =
      .ok (true, [.ghDispatch, .ghRunLookup, .ghPoll 7]) ∧
    Call.ghPoll 7 ∈ [Call.ghDispatch, Call.ghRunLookup, Call.ghPoll 7] :=
  ⟨rfl, by decide⟩

/-- C6 as amended: with waiting requested and a failed dispatch — for an
Azure entry the controller never polls and signals `continue_on_error`
(failure exactly when the flag is false); for a GitHub entry the same holds
when continue-on-error is false; but for a GitHub entry with
continue-on-error = true the controller goes on to the run-id lookup and
polls whatever run the lookup resolves, signalling success regardless. -/
theorem failed_dispatch_policy
    (itemG itemA : Item) (gtok atok : Option String) (t i : Nat) (coe : Bool)
    (genv : GhEnv) (aenv : AzEnv) (r w o p : String) (pid rid : Nat)
    (rids : List Nat)
    (hrepo : itemG.repo = some r) (hwf : itemG.workflow = some w)
    (horg : itemA.organization = some o) (hproj : itemA.project = some p)
    (hpid : itemA.pipeline_id = some pid)
    (hg : truthyToken gtok = true) (ha : truthyToken atok = true)
    (had : truthyId (trigger_azure_pipeline atok aenv.dispatch).1 = false)
    (hgd : genv.dispatch.status_code ≠ 204)
    (hlk : genv.lookup.status_code = 200)
    (hruns : genv.lookup.workflow_runs = rid :: rids) (hrid : rid ≠ 0) :
    process_azure_pipeline itemA atok true t i coe aenv = .ok (coe, [.azDispatch]) ∧
    process_github_workflow itemG gtok true t i false genv = .ok (false, [.ghDispatch]) ∧
    (∃ n, process_github_workflow itemG gtok true t i true genv =
      .ok (true, [.ghDispatch, .ghRunLookup] ++ List.replicate n (.ghPoll rid))) := by
  refine ⟨?_, ?_, ?_⟩
  · unfold process_azure_pipeline
    rw [horg, hproj, hpid]
    simp only [ha, Bool.not_true, Bool.false_eq_true, if_false, had]
    simp [trigger_azure_pipeline_eq atok aenv.dispatch ha]
  · unfold process_github_workflow
    rw [hrepo, hwf]
    simp [hg, trigger_workflow_eq gtok genv.dispatch hg, hgd, truthyBool]
  · refine ⟨(wait_for_github_workflow (some rid) gtok t i genv.poll).2, ?_⟩
    unfold process_github_workflow
    rw [hrepo, hwf]
    simp [hg, trigger_workflow_eq gtok genv.dispatch hg, hgd, truthyBool,
      get_workflow_run_id_eq gtok genv.lookup hg, hlk, hruns, truthyId, hrid]

/-- Witness for C6 amended: Azure dispatch 503 (no run id) with
continue-on-error = false signals failure without polling; GitHub dispatch
401 with continue-on-error = false signals failure without lookup or
polling; GitHub dispatch 401 with continue-on-error = true goes on to poll
the stale run 7. -/
theorem failed_dispatch_policy_witness :
    process_azure_pipeline itemAz (some "a") true 30 30 false azEnvNoRun =
      .ok (false, [.azDispatch]) ∧
    process_github_workflow itemGh (some "g") true 30 30 false ghEnvDispatchFails =
      .ok (false, [.ghDispatch]) ∧
    (∃ n, process_github_workflow itemGh (some "g") true 30 30 true ghEnvDispatchFails =
      .ok (true, [.ghDispatch, .ghRunLookup] ++ List.replicate n (.ghPoll 7))) :=
  failed_dispatch_policy itemGh itemAz (some "g") (some "a") 30 30 false
    ghEnvDispatchFails azEnvNoRun "octo/app" "ci.yml" "org" "proj" 9 7 []
    rfl rfl rfl rfl rfl (by decide) (by decide) (by decide) (by decide)
    rfl rfl (by decide)

/-- C2: an entry that is disabled, or a github/azure entry (with the
required keys of its kind) whose required credential is absent, causes no
HTTP call at all — in particular no dispatch — and is a no-op success: the
loop iteration contributes nothing to the trace and the batch simply
proceeds with the remaining entries. -/
theorem skip_disabled_or_missing_credential
    (item : Item) (gtok atok : Option String) (w : Bool) (t i : Nat) (coe : Bool)
    (env : Nat → EntryEnv) (rest : List Item) (idx : Nat)
    (hcase :
      item.enabled = some false ∨
      (item.type = some "github" ∧ item.repo ≠ none ∧ item.workflow ≠ none ∧
        truthyToken gtok = false) ∨
      (item.type = some "azure" ∧ item.organization ≠ none ∧ item.project ≠ none ∧
        item.pipeline_id ≠ none ∧ truthyToken atok = false)) :
    runEntry item gtok atok w t i coe (env idx) = .ok (true, []) ∧
    mainGo gtok atok w t i coe env (item :: rest) idx =
      ((mainGo gtok atok w t i coe env rest (idx + 1)).1,
       (mainGo gtok atok w t i coe env rest (idx + 1)).2.1,
       idx :: (mainGo gtok atok w t i coe env rest (idx + 1)).2.2) := by
  have hre : runEntry item gtok atok w t i coe (env idx) = .ok (true, []) := by
    unfold runEntry
    rcases hcase with hd | ⟨hty, hr, hw, htok⟩ | ⟨hty, ho, hp, hpi, htok⟩
    · simp [hd]
    · by_cases hd : item.enabled.getD true = true
      · cases hrepo : item.repo with
        | none => exact absurd hrepo hr
        | some rv =>
          cases hwfl : item.workflow with
          | none => exact absurd hwfl hw
          | some wv =>
            simp only [hd, Bool.not_true, Bool.false_eq_true, if_false, hty, if_pos rfl]
            unfold process_github_workflow
            rw [hrepo, hwfl]
            simp [htok]
      · simp only [Bool.not_eq_true] at hd
        simp [hd]
    · by_cases hd : item.enabled.getD true = true
      · cases horg : item.organization with
        | none => exact absurd horg ho
        | some ov =>
          cases hproj : item.project with
          | none => exact absurd hproj hp
          | some pv =>
            cases hpid : item.pipeline_id with
            | none => exact absurd hpid hpi
            | some iv =>
              have hty' : item.type ≠ some "github" := by
                rw [hty]; intro hc; simp at hc
              simp only [hd, Bool.not_true, Bool.false_eq_true, if_false,
                if_neg hty', hty, if_pos rfl]
              unfold process_azure_pipeline
              rw [horg, hproj, hpid]
              simp [htok]
      · simp only [Bool.not_eq_true] at hd
        simp [hd]
  refine ⟨hre, ?_⟩
  rw [mainGo, hre]
  simp

/-- Witness for C2: a disabled GitHub entry in a one-entry batch contributes
nothing and the batch ends all-successful. -/
theorem skip_disabled_or_missing_credential_witness :
    runEntry itemGhDisabled (some "g") none true 30 30 false (envW 1) = .ok (true, []) ∧
    mainGo (some "g") none true 30 30 false envW [itemGhDisabled] 1 =
      (.allProcessed, [], [1]) := by
  have h := skip_disabled_or_missing_credential itemGhDisabled (some "g") none
    true 30 30 false envW [] 1 (Or.inl rfl)
  exact ⟨h.1, by rw [h.2]; rfl⟩

/-- C10: an entry whose "type" is neither "github" nor "azure" (for example
absent) causes no HTTP call and no error — its iteration is a no-op success;
and a batch consisting only of such entries ends with the all-successful
outcome (given the credential gate lets the run start). -/
theorem unknown_type_no_op
    (item : Item) (e : EntryEnv) (items : List Item)
    (gtok atok : Option String) (w : Bool) (t i : Nat) (coe : Bool)
    (env : Nat → EntryEnv)
    (hty1 : item.type ≠ some "github") (hty2 : item.type ≠ some "azure")
    (hall : ∀ x ∈ items, x.type ≠ some "github" ∧ x.type ≠ some "azure")
    (hgate : truthyToken gtok = true ∨ truthyToken atok = true) :
    runEntry item gtok atok w t i coe e = .ok (true, []) ∧
    (main ⟨items⟩ gtok atok w t i coe env).1 = .allProcessed := by
  have hone : ∀ (x : Item), x.type ≠ some "github" → x.type ≠ some "azure" →
      ∀ e', runEntry x gtok atok w t i coe e' = .ok (true, []) := by
    intro x h1 h2 e'
    unfold runEntry
    by_cases hd : x.enabled.getD true = true
    · simp [hd, h1, h2]
    · simp only [Bool.not_eq_true] at hd
      simp [hd]
  have hloop : ∀ (l : List Item),
      (∀ x ∈ l, x.type ≠ some "github" ∧ x.type ≠ some "azure") →
      ∀ idx, (mainGo gtok atok w t i coe env l idx).1 = .allProcessed := by
    intro l
    induction l with
    | nil => intro _ idx; rfl
    | cons a l ih =>
      intro hl idx
      have ha' := hl a (List.mem_cons_self a l)
      have hrest := ih (fun x hx => hl x (List.mem_cons_of_mem a hx)) (idx + 1)
      rw [mainGo, hone a ha'.1 ha'.2 (env idx)]
      simpa using hrest
  refine ⟨hone item hty1 hty2 e, ?_⟩
  unfold main
  rcases hgate with h | h <;> simp [h, hloop items hall 1]

/-- Witness for C10: a batch of two typeless entries ends all-successful. -/
theorem unknown_type_no_op_witness :
    runEntry itemPlain (some "g") none true 30 30 false envHappy = .ok (true, []) ∧
    (main ⟨[itemPlain, itemPlain]⟩ (some "g") none true 30 30 false envW).1 =
      .allProcessed := by
  have h := unknown_type_no_op itemPlain envHappy [itemPlain, itemPlain]
    (some "g") none true 30 30 false envW (by decide) (by decide)
    (by intro x hx; constructor <;> (simp at hx; rw [hx]; decide))
    (Or.inl (by decide))
  exact h

/-- C1: in a three-entry batch where entry #2's processing fails, with
continue-on-error = false the batch stops right after entry #2 — outcome
`stoppedOnFailure 2`, the trace contains only entry-1 and entry-2 calls, and
entry 3's iteration is never reached; with continue-on-error = true entry #3
is still processed, its calls join the trace, and its own result decides how
the batch ends. -/
theorem three_entry_continue_on_error
    (i1 i2 i3 : Item) (gtok atok : Option String) (w : Bool) (t i : Nat)
    (env : Nat → EntryEnv) (c1 c2 c1' c2' c3' : List Call) (r3 : Bool)
    (h1 : runEntry i1 gtok atok w t i false (env 1) = .ok (true, c1))
    (h2 : runEntry i2 gtok atok w t i false (env 2) = .ok (false, c2))
    (h1' : runEntry i1 gtok atok w t i true (env 1) = .ok (true, c1'))
    (h2' : runEntry i2 gtok atok w t i true (env 2) = .ok (true, c2'))
    (h3' : runEntry i3 gtok atok w t i true (env 3) = .ok (r3, c3')) :
    mainGo gtok atok w t i false env [i1, i2, i3] 1 =
      (.stoppedOnFailure 2,
       c1.map (fun c => (1, c)) ++ c2.map (fun c => (2, c)), [1, 2]) ∧
    mainGo gtok atok w t i true env [i1, i2, i3] 1 =
      ((if r3 then .allProcessed else .stoppedOnFailure 3),
       c1'.map (fun c => (1, c)) ++ c2'.map (fun c => (2, c)) ++
         c3'.map (fun c => (3, c)),
       [1, 2, 3]) := by
  constructor
  · simp [mainGo, h1, h2]
  · cases r3 <;> simp [mainGo, h1', h2', h3', List.append_assoc]

/-- Witness for C1: entry 2 is a GitHub entry whose run completes with
conclusion "failure"; entries 1 and 3 are typeless no-ops. -/
theorem three_entry_continue_on_error_witness :
    mainGo (some "g") none true 30 30 false envFails2 [itemPlain, itemGh, itemPlain] 1 =
      (.stoppedOnFailure 2,
       [(2, Call.ghDispatch), (2, Call.ghRunLookup), (2, Call.ghPoll 5)], [1, 2]) ∧
    mainGo (some "g") none true 30 30 true envFails2 [itemPlain, itemGh, itemPlain] 1 =
      (.allProcessed,
       [(2, Call.ghDispatch), (2, Call.ghRunLookup), (2, Call.ghPoll 5)],
       [1, 2, 3]) := by
  have h := three_entry_continue_on_error itemPlain itemGh itemPlain
    (some "g") none true 30 30 envFails2
    [] [.ghDispatch, .ghRunLookup, .ghPoll 5]
    [] [.ghDispatch, .ghRunLookup, .ghPoll 5] [] true
    rfl rfl rfl rfl rfl
  simpa using h

/-- The entry loop under `main`'s `try`: well-behaved entries before a
raising one contribute their calls, the raising entry aborts the loop with
the caught exception, and no later entry contributes anything. -/
theorem mainGo_exception_aux
    (gtok atok : Option String) (w : Bool) (t i : Nat) (coe : Bool)
    (env : Nat → EntryEnv) (bad : Item) (rest : List Item) (e : PyErr) :
    ∀ (pre : List Item) (idx : Nat),
      (∀ j (hj : j < pre.length), ∃ c,
        runEntry (pre.get ⟨j, hj⟩) gtok atok w t i coe (env (idx + j)) = .ok (true, c)) →
      runEntry bad gtok atok w t i coe (env (idx + pre.length)) = .error e →
      (mainGo gtok atok w t i coe env (pre ++ bad :: rest) idx).1 = .caughtException e ∧
      (∀ p ∈ (mainGo gtok atok w t i coe env (pre ++ bad :: rest) idx).2.1,
        p.1 < idx + pre.length) ∧
      (∀ v ∈ (mainGo gtok atok w t i coe env (pre ++ bad :: rest) idx).2.2,
        v ≤ idx + pre.length) := by
  intro pre
  induction pre with
  | nil =>
    intro idx hpre hbad
    simp only [List.length_nil, Nat.add_zero] at hbad
    simp only [List.nil_append, List.length_nil, Nat.add_zero, mainGo, hbad]
    simp
  | cons a pre ih =>
    intro idx hpre hbad
    obtain ⟨c, hc⟩ := hpre 0 (by simp)
    simp only [List.get, Nat.add_zero] at hc
    have hbad' : runEntry bad gtok atok w t i coe (env (idx + 1 + pre.length)) =
        .error e := by
      rw [show idx + 1 + pre.length = idx + (a :: pre).length by
        simp [List.length_cons]; omega]
      exact hbad
    have hpre' : ∀ j (hj : j < pre.length), ∃ cj,
        runEntry (pre.get ⟨j, hj⟩) gtok atok w t i coe (env (idx + 1 + j)) =
          .ok (true, cj) := by
      intro j hj
      have h := hpre (j + 1) (by simpa using Nat.succ_lt_succ hj)
      rw [show idx + (j + 1) = idx + 1 + j by omega] at h
      exact h
    obtain ⟨ihO, ihT, ihV⟩ := ih (idx + 1) hpre' hbad'
    have hstep : mainGo gtok atok w t i coe env ((a :: pre) ++ bad :: rest) idx =
        ((mainGo gtok atok w t i coe env (pre ++ bad :: rest) (idx + 1)).1,
         c.map (fun x => (idx, x)) ++
           (mainGo gtok atok w t i coe env (pre ++ bad :: rest) (idx + 1)).2.1,
         idx :: (mainGo gtok atok w t i coe env (pre ++ bad :: rest) (idx + 1)).2.2) := by
      rw [List.cons_append, mainGo, hc]
      rfl
    rw [hstep]
    refine ⟨ihO, ?_, ?_⟩
    · intro p hp
      simp only [List.mem_append, List.mem_map] at hp
      simp only [List.length_cons]
      rcases hp with ⟨x, _, hx⟩ | hp
      · subst hx
        omega
      · have := ihT p hp
        omega
    · intro v hv
      simp only [List.mem_cons] at hv
      simp only [List.length_cons]
      rcases hv with rfl | hv
      · omega
      · have := ihV v hv
        omega

/-- C9: an exception raised while processing an entry (for instance a github
entry missing its required "repo" key, or an azure entry missing
"organization", "project" or "pipeline_id") is caught by `main`'s top-level
handler: `main` still returns a value — outcome `.caughtException` — instead
of propagating, and the entries after the faulty one are never attempted:
every traced call belongs to an earlier entry and no later index is ever
visited. -/
theorem exception_caught_batch_ends
    (pre : List Item) (bad : Item) (rest : List Item)
    (gtok atok : Option String) (w : Bool) (t i : Nat) (coe : Bool)
    (env : Nat → EntryEnv) (e : PyErr)
    (hgate : truthyToken gtok = true ∨ truthyToken atok = true)
    (hpre : ∀ j (hj : j < pre.length), ∃ c,
      runEntry (pre.get ⟨j, hj⟩) gtok atok w t i coe (env (1 + j)) = .ok (true, c))
    (hbad : runEntry bad gtok atok w t i coe (env (1 + pre.length)) = .error e) :
    (main ⟨pre ++ bad :: rest⟩ gtok atok w t i coe env).1 = .caughtException e ∧
    (∀ p ∈ (main ⟨pre ++ bad :: rest⟩ gtok atok w t i coe env).2.1,
      p.1 ≤ pre.length) ∧
    (∀ v ∈ (main ⟨pre ++ bad :: rest⟩ gtok atok w t i coe env).2.2,
      v ≤ 1 + pre.length) := by
  have hmain : main ⟨pre ++ bad :: rest⟩ gtok atok w t i coe env =
      mainGo gtok atok w t i coe env (pre ++ bad :: rest) 1 := by
    unfold main
    rcases hgate with h | h <;> simp [h]
  rw [hmain]
  obtain ⟨hO, hT, hV⟩ :=
    mainGo_exception_aux gtok atok w t i coe env bad rest e pre 1 hpre hbad
  exact ⟨hO, fun p hp => by have := hT p hp; omega, hV⟩

/-- Witness for C9: entry 2 is a github entry missing "repo"; the batch ends
caught, entry 3 (a well-formed azure entry) is never attempted. -/
theorem exception_caught_batch_ends_witness :
    (main ⟨[itemPlain, itemGhNoRepo, itemAz]⟩ (some "g") none true 30 30 false envW).1 =
      .caughtException (.keyError "repo") ∧
    (∀ p ∈ (main ⟨[itemPlain, itemGhNoRepo, itemAz]⟩ (some "g") none true 30 30 false
        envW).2.1, p.1 ≤ 1) ∧
    (∀ v ∈ (main ⟨[itemPlain, itemGhNoRepo, itemAz]⟩ (some "g") none true 30 30 false
        envW).2.2, v ≤ 2) := by
  have h := exception_caught_batch_ends [itemPlain] itemGhNoRepo [itemAz]
    (some "g") none true 30 30 false envW (.keyError "repo")
    (Or.inl (by decide))
    (by
      intro j hj
      have hj0 : j = 0 := Nat.lt_one_iff.mp (by simpa using hj)
      subst hj0
      exact ⟨[], rfl⟩)
    rfl
  exact h

end Orch
